import Mathlib

/-!
A shallow embedding of the distributed dispatch core of the `runtests`
repository: `src/runtests/condor.py` (the Condor submission backend and
argument codec) and the dispatch flow of `Runtests.main` in
`src/runtests/main.py`.  Machine-level Python details that the embedded
code observes (CPython object identity, `os.environ`, file modes) are
made explicit in the state types below.
-/

namespace Runtests

/-- A Python value as it occurs in the parsed argument namespace of
`runtests`: strings, ints, booleans and `None`. -/
inductive PyVal where
  | str (s : String)
  | int (n : Int)
  | bool (b : Bool)
  | pynone
deriving DecidableEq, Repr

/-- Python `str()` on a `PyVal`, as applied by `str(val)` in
`Condor.build_arguments` (condor.py line 158). -/
def pyStr : PyVal → String
  | .str s => s
  | .int n => toString n
  | .bool b => if b then "True" else "False"
  | .pynone => "None"

/-- Python truthiness of a `PyVal`, as used by
`if not self.other_args[ "dbpath" ]` (condor.py line 143). -/
def pyTruthy : PyVal → Bool
  | .str s => !(s == "")
  | .int n => !(n == 0)
  | .bool b => b
  | .pynone => false

/-- Whether a `PyVal` is a Python `bool`, as tested by
`isinstance(val, bool)` (condor.py line 156). -/
def isBoolVal : PyVal → Bool
  | .bool _ => true
  | _ => false

/-- One entry of `Condor.other_args` (the dict of all parsed command-line
options cached by `Condor.__init__`, condor.py line 49).  `isDefaultObj`
embeds CPython object identity: it is `true` exactly when the stored value
is the very object returned by `arg_parser.get_default(name)` — which is
the case when the option was not supplied on the command line (argparse
then stores the default object itself).  An explicitly supplied value is a
freshly parsed object, so `isDefaultObj = false` even if it is equal to
the default (e.g. `int("540")` is a new object: 540 is outside the CPython
small-int cache). -/
structure ArgEntry where
  name : String
  val : PyVal
  isDefaultObj : Bool
deriving DecidableEq, Repr

/-- The allow-list `ARGS_TO_COPY` of `Condor.build_arguments`
(condor.py lines 123-138). -/
def ARGS_TO_COPY : List String :=
  ["db", "dbpath", "db_pg_schema", "interp", "interp_path",
   "interp_version", "tests_version", "no_parasite", "parser",
   "verbose", "timeout", "simp", "stats", "byte"]

/-- `os.environ` modelled as an association list. -/
def envLookup (env : List (String × String)) (k : String) : Option String :=
  (env.find? (fun p => p.1 == k)).map (fun p => p.2)

/-- `del os.environ[k]` (condor.py line 150). -/
def envDel (env : List (String × String)) (k : String) :
    List (String × String) :=
  env.filter (fun p => !(p.1 == k))

/-- Reading `self.other_args[n]` (a Python dict lookup; every option
consulted by the code is present in the parsed namespace). -/
def argLookup (args : List ArgEntry) (n : String) : PyVal :=
  match args.find? (fun e => e.name == n) with
  | some e => e.val
  | none => PyVal.pynone

/-- `self.other_args[n] = v` (condor.py line 144): dict assignment.  The
assigned value is a fresh object, never the argparse default object. -/
def setArg (args : List ArgEntry) (n : String) (v : PyVal) : List ArgEntry :=
  if args.any (fun e => e.name == n) then
    args.map (fun e => if e.name == n then ⟨n, v, false⟩ else e)
  else
    args ++ [⟨n, v, false⟩]

/-- A record of one file written by the codec: path, content and the mode
set with `os.fchmod` (condor.py line 147). -/
structure FileWrite where
  path : String
  content : String
  mode : Nat
deriving DecidableEq, Repr

/-- `stat.S_IRUSR | stat.S_IWUSR` = 0o600 (condor.py line 147). -/
def condorSecretMode : Nat := 256 + 128

/-- A mode permits only owner read and write: the owner octal digit is 6
(read+write) and the group and other digits are 0. -/
def ownerOnlyRW (m : Nat) : Prop := m / 64 = 6 ∧ m % 64 = 0

/-- The mutable state `Condor.build_arguments` acts on: the process
environment, the cached option dict `self.other_args`, and the files
written in the working directory. -/
structure CondorState where
  environ : List (String × String)
  other_args : List ArgEntry
  files : List FileWrite
deriving DecidableEq, Repr

/-- The single-quote character. -/
def sq : Char := Char.ofNat 39

/-- Replace every occurrence of character `c` by the character list `r`. -/
def replChar (c : Char) (r : List Char) : List Char → List Char
  | [] => []
  | a :: rest =>
    if a = c then r ++ replChar c r rest else a :: replChar c r rest

/-- Condor-style quoting of a value string (condor.py lines 158-159):
single quotes are doubled and the result is wrapped in single quotes. -/
def condorQuoteStr (s : String) : String :=
  String.mk (sq :: (replChar sq [sq, sq] s.data ++ [sq]))

/-- Quoting of a `PyVal` option value: `str(val)` then Condor quoting. -/
def condorQuote (v : PyVal) : String := condorQuoteStr (pyStr v)

/-- The flag text of an option name. -/
def flagOf (n : String) : String := "--" ++ n

/-- The tokens contributed by one `other_args` entry in the projection
loop of `Condor.build_arguments` (condor.py lines 153-159): a flag is
emitted iff the name is allow-listed and the value `is not` the argparse
default object; booleans are bare flags, all other values are quoted. -/
def renderArg (e : ArgEntry) : List String :=
  if e.name ∈ ARGS_TO_COPY ∧ e.isDefaultObj = false then
    match e.val with
    | .bool _ => [flagOf e.name]
    | v => [flagOf e.name, condorQuote v]
  else []

/-- The projection loop of `Condor.build_arguments` as written in the
source: a fold appending each entry's tokens to the accumulator. -/
def build_arguments_core (args : List ArgEntry) : List String :=
  args.foldl (fun acc e => acc ++ renderArg e) []

/-- The configuration-derived tokens, as a flat concatenation. -/
def configTokens (args : List ArgEntry) : List String :=
  (args.map renderArg).flatten

/-- The secret-redaction prelude of `Condor.build_arguments`
(condor.py lines 140-150): if `RUNTESTS_DB` is in the environment, then
(a) when no `dbpath` is configured, set `other_args[ "dbpath" ]` to
`.pgconfig.tmp` and write the secret to that file with mode 0o600, and
(b) in all cases delete `RUNTESTS_DB` from the environment. -/
def redactSecret (s : CondorState) : CondorState :=
  match envLookup s.environ "RUNTESTS_DB" with
  | none => s
  | some secret =>
    let s1 :=
      if pyTruthy (argLookup s.other_args "dbpath") then s
      else
        { s with
          other_args := setArg s.other_args "dbpath" (.str ".pgconfig.tmp"),
          files := s.files ++ [⟨".pgconfig.tmp", secret, condorSecretMode⟩] }
    { s1 with environ := envDel s1.environ "RUNTESTS_DB" }

/-- `Condor.build_arguments` (condor.py lines 121-169), token-level: the
redaction prelude, then the allow-list projection loop, then the fixed
suffix forcing the sub-executor (`-x <sub_exec>`) and the batch reference
(`--batch <job._dbid>,$(Process)`).  Returns the token list and the
post-state (environment, mutated `other_args`, written files). -/
def build_arguments (sub_exec : String) (jobDbid : Int) (s : CondorState) :
    List String × CondorState :=
  let s1 := redactSecret s
  let args := build_arguments_core s1.other_args
  let args := args ++ ["-x", sub_exec, "--batch",
    toString jobDbid ++ ",$(Process)"]
  (args, s1)

/-- The argument string itself: the tokens joined by spaces
(condor.py line 169). -/
def build_arguments_str (sub_exec : String) (jobDbid : Int)
    (s : CondorState) : String × CondorState :=
  let r := build_arguments sub_exec jobDbid s
  (String.intercalate " " r.1, r.2)

/-- Declared argparse defaults of `Runtests.build_arg_parser`
(main.py lines 90-204) for the options consulted by the codec.
Modelled from the spec for the toggles contributed by interpreter and
executor argument groups whose source files are not under `src/`
(`no_parasite`, `simp`, `stats`, `byte`: the spec calls them toggles, so
their argparse default is `False`); all other entries are read directly
from `main.py` and `condor.py`. -/
def mainDefaults : String → PyVal
  | "batch" => .str ""
  | "timeout" => .int 540
  | "verbose" => .pynone
  | "executor" => .str "sequential"
  | "batch_size" => .int 4
  | "title" => .str ""
  | "note" => .str ""
  | "interp" => .str "jsref"
  | "interp_path" => .str ""
  | "parser" => .str ""
  | "interp_version" => .str ""
  | "tests_version" => .pynone
  | "db" => .pynone
  | "dbpath" => .str ""
  | "db_pg_schema" => .str "jsil"
  | "no_parasite" => .bool false
  | "simp" => .bool false
  | "stats" => .bool false
  | "byte" => .bool false
  | _ => .pynone

/-- The result of `Condor.submit_job`: either the leading cluster id
extracted from the terse scheduler response, or the Python int `0`
returned when no identifier is recognizable (condor.py line 119). -/
inductive SubmitResult where
  | cluster (id : String)
  | failed
deriving DecidableEq, Repr

/-- One attempt of the pattern `(\d+)\.\d+ - \d+\.\d+` (condor.py
line 116) anchored at the head of the character list.  Every `\d+` is
followed by a non-digit literal, so the greedy maximal digit run never
backtracks; on success the first capture group (the leading digit run) is
returned. -/
def matchTerseAt (l : List Char) : Option (List Char) :=
  let p1 := l.span (fun c => c.isDigit)
  if p1.1.isEmpty then none else
  match p1.2 with
  | '.' :: r2 =>
    let p2 := r2.span (fun c => c.isDigit)
    if p2.1.isEmpty then none else
    match p2.2 with
    | ' ' :: '-' :: ' ' :: r4 =>
      let p3 := r4.span (fun c => c.isDigit)
      if p3.1.isEmpty then none else
      match p3.2 with
      | '.' :: r6 =>
        let p4 := r6.span (fun c => c.isDigit)
        if p4.1.isEmpty then none else some p1.1
      | _ => none
    | _ => none
  | _ => none

/-- `re.search` of the pattern above: try each start position from the
left and return the first capture of the first position that matches. -/
def searchTerse : List Char → Option (List Char)
  | [] => none
  | c :: rest =>
    match matchTerseAt (c :: rest) with
    | some d => some d
    | none => searchTerse rest

/-- No recognizable `<cluster>.<task> - <cluster>.<task>` identifier
occurs anywhere in the scheduler response. -/
def noRecognizableId (out : String) : Prop := searchTerse out.data = none

/-- `Condor.submit_job` response handling (condor.py lines 116-119):
`match.group(1)` on success, the sentinel `0` otherwise.  The function is
total: it never raises. -/
def submit_job (out : String) : SubmitResult :=
  match searchTerse out.data with
  | some d => .cluster (String.mk d)
  | none => .failed

/-- Modelled from the spec: the Batch Partitioner (`Job.add_testcases` in
`core.py`, which is not under `src/`): batch `i` holds the test cases at
positions `[i*B, min((i+1)*B, N))`, so the batch count is `ceil(N/B)`
(spec section 4.1 and section 8, Partition completeness). -/
def numBatches (n b : Nat) : Nat := (n + b - 1) / b

/-- The observable steps of the dispatch flow of `Runtests.main`
(main.py lines 258-298) and `Condor.run_job` (condor.py lines 56-80).
`insertTestcases` is `dbmanager.insert_testcases(testcases)` applied to
the full collected list; `createJobBatchesRuns` is
`dbmanager.create_job_batches_runs(job)`; `submitToScheduler` is the
`condor_submit` invocation inside `Condor.submit_job`;
`registryRollback` would be a deletion of already-committed registry
rows — the code never performs one. -/
inductive Event where
  | collectTestcases
  | insertTestcases
  | createJobBatchesRuns
  | loadBatchTests
  | buildJob
  | submitToScheduler
  | writeJobinfo
  | updateJob
  | disconnect
  | registryRollback
deriving DecidableEq, Repr

/-- The outcome of one process invocation: the ordered trace of observable
steps and the process exit status. -/
structure ProcOutcome where
  trace : List Event
  exitCode : Nat
deriving DecidableEq, Repr

/-- The tail of `Condor.run_job` after submission (condor.py lines 75-80,
plus the `except` handler of `Runtests.main`, main.py lines 302-304).
`write_jobinfo` computes
`(LOG_JOB_FILE % dbid).replace( "$(Cluster)", job.condor_cluster)` when
`log_job` is set (condor.py lines 173-175); when submission failed,
`condor_cluster` is the Python int `0`, so `str.replace` raises
`TypeError`, the exception is caught in `main`, and the process exits 2.
Otherwise the jobinfo file is written, the job row is updated, the
database is disconnected and `run_job` calls `exit(0)`. -/
def jobinfoPhase (res : SubmitResult) (log_job : Bool) :
    List Event × Nat :=
  match res, log_job with
  | .failed, true => ([], 2)
  | _, _ => ([.writeJobinfo, .updateJob, .disconnect], 0)

/-- `Condor.run_job` (condor.py lines 56-80) under the exception handler
of `Runtests.main` (main.py lines 302-304): without a database handler it
raises `ValueError` immediately — before building or submitting anything —
and the handler exits 2; otherwise it builds the job description, submits
it (parsing the scheduler response `resp` with `submit_job`), and runs the
jobinfo/update/disconnect tail. -/
def run_job (hasDB : Bool) (log_job : Bool) (resp : String) : ProcOutcome :=
  if hasDB then
    let ph := jobinfoPhase (submit_job resp) log_job
    ⟨Event.buildJob :: Event.submitToScheduler :: ph.1, ph.2⟩
  else ⟨[], 2⟩

/-- The arguments of one `runtests` invocation that the dispatch flow
branches on: the `--batch` string (empty by default), whether a database
registry is configured (`DBManager.from_args` returns a handler, modelled
from the spec: `db.py` is not under `src/`), the number of collected test
cases, the batch size, the `--condor_log` toggle, and the raw scheduler
response the submission will receive. -/
structure MainArgs where
  batch : String
  hasDB : Bool
  nTests : Nat
  batch_size : Nat
  condor_log : Bool
  schedResponse : String
deriving DecidableEq, Repr

/-- The dispatch flow of `Runtests.main` for the Condor executor
(main.py lines 258-304).  With `--batch` set it loads the batch from the
registry (raising `ValueError`, exit 2, when no database is configured,
main.py lines 261-262).  Otherwise it collects test cases, inserts them
into the registry when a database is configured (line 286), creates the
job/batch/run rows when additionally `--batch` is unset (line 295), and
then calls `executor.run_job(job)` (line 298) unconditionally — in
particular independently of the number of collected test cases. -/
def main (a : MainArgs) : ProcOutcome :=
  if a.batch ≠ "" then
    if a.hasDB then
      let r := run_job a.hasDB a.condor_log a.schedResponse
      ⟨Event.loadBatchTests :: r.trace, r.exitCode⟩
    else ⟨[], 2⟩
  else
    let pre := Event.collectTestcases ::
      (if a.hasDB then [Event.insertTestcases, Event.createJobBatchesRuns]
       else [])
    let r := run_job a.hasDB a.condor_log a.schedResponse
    ⟨pre ++ r.trace, r.exitCode⟩

/-- `x` occurs strictly before `y` in the trace `l`. -/
def eventBefore (x y : Event) (l : List Event) : Prop :=
  ∃ i j, i < j ∧ l.get? i = some x ∧ l.get? j = some y

/-- The token sequence `mid` occurs contiguously inside `l`. -/
def containsRun (mid l : List String) : Prop :=
  ∃ p q, l = p ++ (mid ++ q)

/-- A configuration for concrete checks: the database secret only in the
environment, `dbpath` left at its default object, one explicit option. -/
def exampleStateSecret : CondorState :=
  ⟨[("RUNTESTS_DB", "pg://user:hunter2@host/db")],
   [⟨"dbpath", .str "", true⟩, ⟨"timeout", .int 100, false⟩], []⟩

/-- A configuration holding both a non-allow-listed non-default option
(`title`) and an allow-listed one (`timeout`). -/
def exampleStateMixed : CondorState :=
  ⟨[], [⟨"title", .str "run A", false⟩, ⟨"timeout", .int 120, false⟩], []⟩

/-- A configuration where `--timeout 540` was passed explicitly on the
command line: the stored value equals the declared default 540 but is a
distinct CPython object, so `isDefaultObj = false`. -/
def exampleStateExplicitDefault : CondorState :=
  ⟨[], [⟨"timeout", .int 540, false⟩], []⟩

/- ------------------------------------------------------------------ -/
/- Helper lemmas -/
/- ------------------------------------------------------------------ -/

theorem foldl_renderArg (args : List ArgEntry) (init : List String) :
    List.foldl (fun acc e => acc ++ renderArg e) init args
      = init ++ configTokens args := by
  induction args generalizing init with
  | nil => simp [configTokens]
  | cons e t ih =>
    simp only [List.foldl_cons, ih, configTokens, List.map_cons,
      List.flatten_cons, List.append_assoc]

theorem build_arguments_core_eq (args : List ArgEntry) :
    build_arguments_core args = configTokens args := by
  simpa using foldl_renderArg args []

theorem containsRun_flatten_of_mem {l : List String}
    {L : List (List String)} (h : l ∈ L) : containsRun l L.flatten := by
  induction L with
  | nil => cases h
  | cons a t ih =>
    rcases List.mem_cons.mp h with h1 | h2
    · exact ⟨[], t.flatten, by simp [h1]⟩
    · rcases ih h2 with ⟨p, q, hpq⟩
      exact ⟨a ++ p, q, by simp [hpq, List.append_assoc]⟩

theorem containsRun_append_right {mid l : List String} (r : List String)
    (h : containsRun mid l) : containsRun mid (l ++ r) := by
  rcases h with ⟨p, q, hpq⟩
  exact ⟨p, q ++ r, by simp [hpq, List.append_assoc]⟩

theorem envLookup_envDel (env : List (String × String)) (k : String) :
    envLookup (envDel env k) k = none := by
  have h : (envDel env k).find? (fun p => p.1 == k) = none := by
    rw [List.find?_eq_none]
    intro x hx
    have hfx := List.of_mem_filter hx
    simp only [Bool.not_eq_true'] at hfx
    simp [hfx]
  simp [envLookup, h]

theorem setArg_mem (args : List ArgEntry) (n : String) (v : PyVal) :
    (⟨n, v, false⟩ : ArgEntry) ∈ setArg args n v := by
  unfold setArg
  by_cases h : args.any (fun e => e.name == n) = true
  · rw [if_pos h]
    rcases List.any_eq_true.mp h with ⟨e, he, hname⟩
    refine List.mem_map.mpr ⟨e, he, ?_⟩
    simp [hname]
  · rw [if_neg h]
    simp

theorem find?_setArg_map (args : List ArgEntry) (n : String) (v : PyVal) :
    (args.map (fun e => if e.name == n then (⟨n, v, false⟩ : ArgEntry)
        else e)).find? (fun e => e.name == n)
      = if args.any (fun e => e.name == n) then some ⟨n, v, false⟩
        else none := by
  induction args with
  | nil => rfl
  | cons e t ih =>
    by_cases he : (e.name == n) = true
    · simp [List.find?, he]
    · simp only [List.map_cons, List.any_cons, he, if_neg, Bool.false_or]
      rw [List.find?]
      simp only [he, if_neg, Bool.false_eq_true, not_false_eq_true]
      exact ih

theorem argLookup_setArg (args : List ArgEntry) (n : String) (v : PyVal) :
    argLookup (setArg args n v) n = v := by
  unfold argLookup setArg
  by_cases h : args.any (fun e => e.name == n) = true
  · rw [if_pos h, find?_setArg_map, if_pos h]
  · rw [if_neg h]
    have hnone : args.find? (fun e => e.name == n) = none := by
      rw [List.find?_eq_none]
      intro x hx hbx
      exact h (List.any_eq_true.mpr ⟨x, hx, hbx⟩)
    simp [List.find?_append, hnone, List.find?]

theorem renderArg_eq_pos {e : ArgEntry}
    (hc : e.name ∈ ARGS_TO_COPY ∧ e.isDefaultObj = false) :
    renderArg e = flagOf e.name ::
      (if isBoolVal e.val then [] else [condorQuote e.val]) := by
  unfold renderArg
  rw [if_pos hc]
  cases e.val <;> rfl

theorem renderArg_eq_neg {e : ArgEntry}
    (hc : ¬(e.name ∈ ARGS_TO_COPY ∧ e.isDefaultObj = false)) :
    renderArg e = [] := by
  unfold renderArg
  rw [if_neg hc]

theorem data_flagOf (n : String) :
    (flagOf n).data = '-' :: '-' :: n.data := by
  have h := String.data_append "--" n
  have h2 : ("--" : String).data = ['-', '-'] := rfl
  rw [flagOf, h, h2]
  rfl

theorem flagOf_inj {a b : String} (h : flagOf a = flagOf b) : a = b := by
  have hd := congrArg String.data h
  rw [data_flagOf, data_flagOf] at hd
  exact String.ext (by simpa using hd)

theorem flagOf_ne_quote (n v : String) : flagOf n ≠ condorQuoteStr v := by
  intro h
  have hd := congrArg String.data h
  rw [data_flagOf] at hd
  have hq : (condorQuoteStr v).data
      = sq :: (replChar sq [sq, sq] v.data ++ [sq]) := rfl
  rw [hq] at hd
  have hc : ('-' : Char) = sq := by
    exact (List.cons.injEq _ _ _ _).mp hd |>.1
  exact absurd hc (by decide)

/- Sanity checks of the embedding on concrete inputs. -/

example : submit_job "4821.0 - 4821.3" = .cluster "4821" := by decide

example : submit_job "error: no cluster" = .failed := by decide

example :
    build_arguments "sequential" 3
      ⟨[], [⟨"timeout", .int 120, false⟩], []⟩
    = (["--timeout", condorQuoteStr "120", "-x", "sequential", "--batch",
        "3,$(Process)"],
       ⟨[], [⟨"timeout", .int 120, false⟩], []⟩) := by decide

example :
    (build_arguments_str "sequential" 3
      ⟨[], [⟨"simp", .bool true, false⟩], []⟩).1
    = "--simp -x sequential --batch 3,$(Process)" := by decide

/- ------------------------------------------------------------------ -/
/- Claim theorems -/
/- ------------------------------------------------------------------ -/

/-- C3: `submit_job` extracts the leading cluster identifier `4821` from
the terse scheduler response `4821.0 - 4821.3`, and for every response in
which no identifier pattern is recognizable it returns the failure
sentinel (the embedded function is total: nothing is raised). -/
theorem submit_job_terse_parsing :
    submit_job "4821.0 - 4821.3" = SubmitResult.cluster "4821"
    ∧ ∀ out : String, noRecognizableId out →
        submit_job out = SubmitResult.failed := by
  constructor
  · decide
  · intro out h
    unfold submit_job
    unfold noRecognizableId at h
    rw [h]

theorem submit_job_terse_parsing_witness :
    submit_job "condor rejected the job" = SubmitResult.failed :=
  submit_job_terse_parsing.2 "condor rejected the job"
    (by unfold noRecognizableId; decide)

/-- C7: every token list produced by `build_arguments` ends with the
fixed scope suffix: `-x` followed by the configured sub-executor, then
the `--batch` flag followed by the batch-reference token
`<job._dbid>,$(Process)` (the registry job identity and the scheduler
array-task placeholder). -/
theorem build_arguments_scope_suffix (sub_exec : String) (jobDbid : Int)
    (s : CondorState) :
    ∃ p, (build_arguments sub_exec jobDbid s).1
      = p ++ ["-x", sub_exec, "--batch",
              toString jobDbid ++ ",$(Process)"] :=
  ⟨build_arguments_core (redactSecret s).other_args, rfl⟩

/-- C9: attempting distributed dispatch with no database handler attached
aborts before any registry write or scheduler submission — `run_job`
raises `ValueError` as its first action — and the process exits with the
distinguished non-zero status 2 (the generic fatal-exception status of
`Runtests.main`, distinct from the result-collation exit path). -/
theorem no_db_aborts_before_writes (a : MainArgs)
    (hdb : a.hasDB = false) :
    Event.insertTestcases ∉ (main a).trace
    ∧ Event.createJobBatchesRuns ∉ (main a).trace
    ∧ Event.submitToScheduler ∉ (main a).trace
    ∧ (main a).exitCode = 2 ∧ (2 : Nat) ≠ 0 := by
  unfold main run_job
  rw [hdb]
  by_cases hb : a.batch ≠ "" <;> simp [hb]

theorem no_db_aborts_before_writes_witness :
    Event.submitToScheduler
      ∉ (main ⟨"", false, 3, 4, false, "4821.0 - 4821.3"⟩).trace
    ∧ (main ⟨"", false, 3, 4, false, "4821.0 - 4821.3"⟩).exitCode = 2 :=
  ⟨(no_db_aborts_before_writes ⟨"", false, 3, 4, false, "4821.0 - 4821.3"⟩
      rfl).2.2.1,
   (no_db_aborts_before_writes ⟨"", false, 3, 4, false, "4821.0 - 4821.3"⟩
      rfl).2.2.2.1⟩

/-- C1: in the dispatch flow (no `--batch` argument, database
configured), both registry writes — `insert_testcases` for the collected
test cases and `create_job_batches_runs` for the job/batch associations —
occur strictly before the submission backend hands the job description to
the scheduler. -/
theorem registry_writes_before_submit (a : MainArgs)
    (hb : a.batch = "") (hdb : a.hasDB = true) :
    eventBefore Event.insertTestcases Event.submitToScheduler
      (main a).trace
    ∧ eventBefore Event.createJobBatchesRuns Event.submitToScheduler
      (main a).trace := by
  have ht : (main a).trace
      = Event.collectTestcases :: Event.insertTestcases ::
        Event.createJobBatchesRuns :: Event.buildJob ::
        Event.submitToScheduler ::
        (jobinfoPhase (submit_job a.schedResponse) a.condor_log).1 := by
    simp [main, run_job, hb, hdb]
  unfold eventBefore
  rw [ht]
  exact ⟨⟨1, 4, by omega, rfl, rfl⟩, ⟨2, 4, by omega, rfl, rfl⟩⟩

theorem registry_writes_before_submit_witness :
    eventBefore Event.insertTestcases Event.submitToScheduler
      (main ⟨"", true, 5, 4, false, "4821.0 - 4821.3"⟩).trace
    ∧ eventBefore Event.createJobBatchesRuns Event.submitToScheduler
      (main ⟨"", true, 5, 4, false, "4821.0 - 4821.3"⟩).trace :=
  registry_writes_before_submit ⟨"", true, 5, 4, false, "4821.0 - 4821.3"⟩
    rfl rfl

/-- C4 is false as stated: with zero collected test cases the partitioner
yields zero batches, yet the dispatch flow does not short-circuit —
`executor.run_job` is still called and the submission backend still
submits (a zero-size array job) to the scheduler. -/
theorem zero_work_counterexample :
    numBatches 0 4 = 0
    ∧ Event.submitToScheduler
        ∈ (main ⟨"", true, 0, 4, false, "oops"⟩).trace := by decide

/-- C4 amended: zero collected test cases yield zero batches, but the
dispatch flow is independent of the number of test cases: the submission
backend is invoked all the same. -/
theorem zero_work_no_short_circuit (a : MainArgs) (hb : a.batch = "")
    (hdb : a.hasDB = true) (hn : a.nTests = 0) :
    numBatches a.nTests a.batch_size = 0
    ∧ Event.submitToScheduler ∈ (main a).trace := by
  constructor
  · rw [hn]
    unfold numBatches
    rcases a.batch_size with _ | b
    · rfl
    · exact Nat.div_eq_of_lt (by omega)
  · have ht : (main a).trace
        = Event.collectTestcases :: Event.insertTestcases ::
          Event.createJobBatchesRuns :: Event.buildJob ::
          Event.submitToScheduler ::
          (jobinfoPhase (submit_job a.schedResponse) a.condor_log).1 := by
      simp [main, run_job, hb, hdb]
    rw [ht]
    simp

theorem zero_work_no_short_circuit_witness :
    numBatches (0 : Nat) 7 = 0
    ∧ Event.submitToScheduler
        ∈ (main ⟨"", true, 0, 7, true, "zz"⟩).trace :=
  zero_work_no_short_circuit ⟨"", true, 0, 7, true, "zz"⟩ rfl rfl rfl

/-- C8 is false as stated: on a malformed scheduler response `run_job`
does not abort — it records the Python int sentinel `0` as the cluster
id, writes the jobinfo file, updates the job row, disconnects and calls
`exit(0)` (when `--condor_log` is unset); the committed registry rows
are indeed left in place, but the exit status is 0, not a distinct
non-zero fatal status. -/
theorem failed_submit_counterexample :
    submit_job "malformed response" = SubmitResult.failed
    ∧ (run_job true false "malformed response").exitCode = 0
    ∧ Event.registryRollback
        ∉ (run_job true false "malformed response").trace := by decide

/-- C8 amended: on a malformed scheduler response the already-committed
registry rows are never rolled back, but the invocation is not fatal:
with `--condor_log` unset it completes normally and exits 0; with it set,
the jobinfo `$(Cluster)` substitution raises `TypeError` on the int
sentinel and the process exits 2 via the generic exception handler. -/
theorem failed_submit_no_rollback (log_job : Bool) (resp : String)
    (hfail : submit_job resp = SubmitResult.failed) :
    Event.registryRollback ∉ (run_job true log_job resp).trace
    ∧ (run_job true log_job resp).exitCode
      = (if log_job then 2 else 0) := by
  unfold run_job jobinfoPhase
  rw [hfail]
  cases log_job <;> simp

theorem failed_submit_no_rollback_witness :
    Event.registryRollback ∉ (run_job true false "bad response").trace
    ∧ (run_job true false "bad response").exitCode
      = (if false then 2 else 0) :=
  failed_submit_no_rollback false "bad response" (by decide)

/-- C2: when the database secret is supplied only via the `RUNTESTS_DB`
environment variable and no `dbpath` is configured, `build_arguments`
(a) removes `RUNTESTS_DB` from the environment, (b) writes the secret to
the newly created file `.pgconfig.tmp` with mode `S_IRUSR|S_IWUSR`
(0o600), which permits only owner read and write, (c) emits `--dbpath`
followed by the quoted file path into the argument tokens, and (d) the
token output does not depend on the secret at all — encoding any state
with the same option dict and any other secret yields the same tokens —
so the literal secret cannot occur in the encoded argument string. -/
theorem credential_redaction (sub_exec : String) (jobDbid : Int)
    (s : CondorState) (secret : String)
    (henv : envLookup s.environ "RUNTESTS_DB" = some secret)
    (hdb : pyTruthy (argLookup s.other_args "dbpath") = false) :
    envLookup (build_arguments sub_exec jobDbid s).2.environ "RUNTESTS_DB"
      = none
    ∧ (build_arguments sub_exec jobDbid s).2.files
      = s.files ++ [⟨".pgconfig.tmp", secret, condorSecretMode⟩]
    ∧ ownerOnlyRW condorSecretMode
    ∧ containsRun ["--dbpath", condorQuoteStr ".pgconfig.tmp"]
        (build_arguments sub_exec jobDbid s).1
    ∧ ∀ (s2 : CondorState) (secret2 : String),
        s2.other_args = s.other_args →
        envLookup s2.environ "RUNTESTS_DB" = some secret2 →
        (build_arguments sub_exec jobDbid s2).1
          = (build_arguments sub_exec jobDbid s).1 := by
  have hred : redactSecret s
      = { environ := envDel s.environ "RUNTESTS_DB",
          other_args :=
            setArg s.other_args "dbpath" (.str ".pgconfig.tmp"),
          files :=
            s.files ++ [⟨".pgconfig.tmp", secret, condorSecretMode⟩] } := by
    simp [redactSecret, henv, hdb]
  have h2 : (build_arguments sub_exec jobDbid s).2 = redactSecret s := rfl
  have h1 : (build_arguments sub_exec jobDbid s).1
      = build_arguments_core (redactSecret s).other_args
        ++ ["-x", sub_exec, "--batch",
            toString jobDbid ++ ",$(Process)"] := rfl
  refine ⟨?_, ?_, ⟨rfl, rfl⟩, ?_, ?_⟩
  · rw [h2, hred]
    exact envLookup_envDel s.environ "RUNTESTS_DB"
  · rw [h2, hred]
  · rw [h1, hred]
    apply containsRun_append_right
    rw [build_arguments_core_eq]
    have hm : (⟨"dbpath", .str ".pgconfig.tmp", false⟩ : ArgEntry)
        ∈ setArg s.other_args "dbpath" (.str ".pgconfig.tmp") :=
      setArg_mem s.other_args "dbpath" (.str ".pgconfig.tmp")
    have hr : renderArg ⟨"dbpath", .str ".pgconfig.tmp", false⟩
        = ["--dbpath", condorQuoteStr ".pgconfig.tmp"] := by decide
    have hc := containsRun_flatten_of_mem
      (List.mem_map.mpr ⟨_, hm, rfl⟩ :
        renderArg ⟨"dbpath", .str ".pgconfig.tmp", false⟩
          ∈ (setArg s.other_args "dbpath"
              (.str ".pgconfig.tmp")).map renderArg)
    rw [hr] at hc
    exact hc
  · intro s2 secret2 hargs henv2
    have hred2 : redactSecret s2
        = { environ := envDel s2.environ "RUNTESTS_DB",
            other_args :=
              setArg s2.other_args "dbpath" (.str ".pgconfig.tmp"),
            files :=
              s2.files
                ++ [⟨".pgconfig.tmp", secret2, condorSecretMode⟩] } := by
      simp [redactSecret, henv2, hargs, hdb]
    have h1b : (build_arguments sub_exec jobDbid s2).1
        = build_arguments_core (redactSecret s2).other_args
          ++ ["-x", sub_exec, "--batch",
              toString jobDbid ++ ",$(Process)"] := rfl
    rw [h1, h1b, hred, hred2, hargs]

theorem credential_redaction_witness :
    envLookup
        (build_arguments "sequential" 7 exampleStateSecret).2.environ
        "RUNTESTS_DB" = none
    ∧ (build_arguments "sequential" 7 exampleStateSecret).2.files
      = exampleStateSecret.files
        ++ [⟨".pgconfig.tmp", "pg://user:hunter2@host/db",
             condorSecretMode⟩]
    ∧ ownerOnlyRW condorSecretMode := by
  have h := credential_redaction "sequential" 7 exampleStateSecret
    "pg://user:hunter2@host/db" (by decide) (by decide)
  exact ⟨h.1, h.2.1, h.2.2.1⟩

/-- C5 is false as stated: the encoded output always contains the flag
`--batch`, and `batch` — a real option of the program
(main.py line 96) that is not in `ARGS_TO_COPY` — is therefore a
non-allow-listed flag appearing in the output.  The configuration holds
both an allow-listed (`timeout`) and a non-allow-listed (`title`)
non-default option, and `--title` is indeed absent. -/
theorem allowlist_counterexample :
    "--batch" ∈ (build_arguments "sequential" 3 exampleStateMixed).1
    ∧ "batch" ∉ ARGS_TO_COPY
    ∧ "--title"
        ∉ (build_arguments "sequential" 3 exampleStateMixed).1 := by
  decide

/-- C5 amended: every configuration-derived token of `build_arguments` is
either the flag of an allow-listed option name or a quoted value — the
projection loop never emits a flag for a non-allow-listed option; the
only tokens beyond the projection are the fixed trailing scope suffix
`-x <sub_exec> --batch <job-id>,$(Process)`. -/
theorem allowlist_closure (sub_exec : String) (jobDbid : Int)
    (s : CondorState) :
    (∀ t ∈ build_arguments_core (redactSecret s).other_args,
        (∃ n ∈ ARGS_TO_COPY, t = flagOf n) ∨ ∃ v, t = condorQuoteStr v)
    ∧ (build_arguments sub_exec jobDbid s).1
      = build_arguments_core (redactSecret s).other_args
        ++ ["-x", sub_exec, "--batch",
            toString jobDbid ++ ",$(Process)"] := by
  refine ⟨?_, rfl⟩
  intro t ht
  rw [build_arguments_core_eq] at ht
  rcases List.mem_flatten.mp ht with ⟨l, hl, htl⟩
  rcases List.mem_map.mp hl with ⟨e, _, rfl⟩
  by_cases hc : e.name ∈ ARGS_TO_COPY ∧ e.isDefaultObj = false
  · rw [renderArg_eq_pos hc] at htl
    rcases List.mem_cons.mp htl with h | h
    · exact Or.inl ⟨e.name, hc.1, h⟩
    · by_cases hb : isBoolVal e.val = true
      · rw [if_pos hb] at h
        cases h
      · rw [if_neg hb] at h
        rcases List.mem_singleton.mp h with rfl
        exact Or.inr ⟨pyStr e.val, rfl⟩
  · rw [renderArg_eq_neg hc] at htl
    cases htl

theorem allowlist_closure_witness :
    (∃ n ∈ ARGS_TO_COPY, "--timeout" = flagOf n)
    ∨ ∃ v, "--timeout" = condorQuoteStr v :=
  (allowlist_closure "sequential" 3 exampleStateMixed).1 "--timeout"
    (by decide)

/-- C6 is false as stated: `Condor.build_arguments` compares values with
`is not` — CPython object identity — rather than inequality with the
declared default.  `--timeout 540` passed explicitly stores a value equal
to the declared default `mainDefaults "timeout" = 540`, but as a freshly
parsed object (540 lies outside the CPython small-int cache), so the
`--timeout` flag is emitted although the value equals its default. -/
theorem default_suppression_counterexample :
    mainDefaults "timeout" = PyVal.int 540
    ∧ argLookup exampleStateExplicitDefault.other_args "timeout"
      = mainDefaults "timeout"
    ∧ "--timeout"
        ∈ (build_arguments "sequential" 9 exampleStateExplicitDefault).1
    := by decide

/-- C6 amended: suppression is by object identity, not value equality.
An allow-listed option whose stored value is the argparse default object
itself — in particular any option not supplied on the command line —
never appears in the configuration-derived tokens; an option whose stored
value is not the default object always appears, as a bare flag for
booleans and as a flag followed by the shell-quoted value otherwise; in
particular any option whose value differs from its declared default
appears. -/
theorem default_suppression (gd : String → PyVal) (args : List ArgEntry)
    (hcons : ∀ e ∈ args, e.isDefaultObj = true → e.val = gd e.name) :
    (∀ n : String,
        (∀ e ∈ args, e.name = n → e.isDefaultObj = true) →
        flagOf n ∉ configTokens args)
    ∧ (∀ e ∈ args, e.name ∈ ARGS_TO_COPY → e.isDefaultObj = false →
        flagOf e.name ∈ configTokens args
        ∧ (isBoolVal e.val = true → renderArg e = [flagOf e.name])
        ∧ (isBoolVal e.val = false →
            renderArg e = [flagOf e.name, condorQuote e.val]))
    ∧ (∀ e ∈ args, e.name ∈ ARGS_TO_COPY → e.val ≠ gd e.name →
        flagOf e.name ∈ configTokens args) := by
  have hmem : ∀ e ∈ args, e.name ∈ ARGS_TO_COPY →
      e.isDefaultObj = false → flagOf e.name ∈ configTokens args := by
    intro e he hcopy hdflt
    refine List.mem_flatten.mpr
      ⟨renderArg e, List.mem_map_of_mem renderArg he, ?_⟩
    rw [renderArg_eq_pos ⟨hcopy, hdflt⟩]
    exact List.mem_cons_self _ _
  refine ⟨?_, ?_, ?_⟩
  · intro n hn hflag
    rcases List.mem_flatten.mp hflag with ⟨l, hl, htl⟩
    rcases List.mem_map.mp hl with ⟨e, he, rfl⟩
    by_cases hc : e.name ∈ ARGS_TO_COPY ∧ e.isDefaultObj = false
    · rw [renderArg_eq_pos hc] at htl
      rcases List.mem_cons.mp htl with h | h
      · have hne : n = e.name := flagOf_inj h
        have hd := hn e he hne.symm
        rw [hd] at hc
        exact absurd hc.2 (by simp)
      · by_cases hb : isBoolVal e.val = true
        · rw [if_pos hb] at h
          cases h
        · rw [if_neg hb] at h
          rcases List.mem_singleton.mp h with h
          exact flagOf_ne_quote n (pyStr e.val) h
    · rw [renderArg_eq_neg hc] at htl
      cases htl
  · intro e he hcopy hdflt
    refine ⟨hmem e he hcopy hdflt, ?_, ?_⟩
    · intro hbool
      rw [renderArg_eq_pos ⟨hcopy, hdflt⟩, if_pos hbool]
    · intro hnotbool
      rw [renderArg_eq_pos ⟨hcopy, hdflt⟩,
        if_neg (by simp [hnotbool])]
  · intro e he hcopy hne
    cases hd : e.isDefaultObj
    · exact hmem e he hcopy hd
    · exact absurd (hcons e he hd) hne

theorem default_suppression_witness :
    flagOf "timeout" ∈ configTokens exampleStateExplicitDefault.other_args
    ∧ mainDefaults "timeout" = PyVal.int 540 := by
  have h := (default_suppression mainDefaults
    exampleStateExplicitDefault.other_args (by decide)).2.1
    ⟨"timeout", .int 540, false⟩ (by decide) (by decide) (by decide)
  exact ⟨h.1, by decide⟩

/-- C10: whenever `RUNTESTS_DB` is present in the environment,
`build_arguments` deletes it — even when a `dbpath` is already
configured, in which case no credential file is written and the rest of
the state is untouched; and when the credential file is written, the
stored configuration itself is mutated: in the returned post-state
`other_args[ "dbpath" ]` is `.pgconfig.tmp`, a side effect that persists
after encoding returns. -/
theorem env_secret_frame_effects (sub_exec : String) (jobDbid : Int)
    (s : CondorState) (secret : String)
    (henv : envLookup s.environ "RUNTESTS_DB" = some secret) :
    envLookup (build_arguments sub_exec jobDbid s).2.environ "RUNTESTS_DB"
      = none
    ∧ (pyTruthy (argLookup s.other_args "dbpath") = true →
        (build_arguments sub_exec jobDbid s).2.files = s.files
        ∧ (build_arguments sub_exec jobDbid s).2.other_args
          = s.other_args)
    ∧ (pyTruthy (argLookup s.other_args "dbpath") = false →
        argLookup (build_arguments sub_exec jobDbid s).2.other_args
          "dbpath" = PyVal.str ".pgconfig.tmp"
        ∧ (build_arguments sub_exec jobDbid s).2.files
          = s.files
            ++ [⟨".pgconfig.tmp", secret, condorSecretMode⟩]) := by
  have h2 : (build_arguments sub_exec jobDbid s).2 = redactSecret s := rfl
  by_cases hdb : pyTruthy (argLookup s.other_args "dbpath") = true
  · have hred : redactSecret s
        = { s with environ := envDel s.environ "RUNTESTS_DB" } := by
      simp [redactSecret, henv, hdb]
    refine ⟨?_, fun _ => ⟨?_, ?_⟩, fun hcontra => ?_⟩
    · rw [h2, hred]
      exact envLookup_envDel s.environ "RUNTESTS_DB"
    · rw [h2, hred]
    · rw [h2, hred]
    · rw [hdb] at hcontra
      cases hcontra
  · have hdbf : pyTruthy (argLookup s.other_args "dbpath") = false := by
      revert hdb
      cases pyTruthy (argLookup s.other_args "dbpath") <;> simp
    have hred : redactSecret s
        = { environ := envDel s.environ "RUNTESTS_DB",
            other_args :=
              setArg s.other_args "dbpath" (.str ".pgconfig.tmp"),
            files :=
              s.files
                ++ [⟨".pgconfig.tmp", secret, condorSecretMode⟩] } := by
      simp [redactSecret, henv, hdbf]
    refine ⟨?_, fun hcontra => ?_, fun _ => ⟨?_, ?_⟩⟩
    · rw [h2, hred]
      exact envLookup_envDel s.environ "RUNTESTS_DB"
    · rw [hdbf] at hcontra
      cases hcontra
    · rw [h2, hred]
      exact argLookup_setArg s.other_args "dbpath" (.str ".pgconfig.tmp")
    · rw [h2, hred]

theorem env_secret_frame_effects_witness :
    envLookup
        (build_arguments "sequential" 7 exampleStateSecret).2.environ
        "RUNTESTS_DB" = none
    ∧ argLookup
        (build_arguments "sequential" 7 exampleStateSecret).2.other_args
        "dbpath" = PyVal.str ".pgconfig.tmp" := by
  have h := env_secret_frame_effects "sequential" 7 exampleStateSecret
    "pg://user:hunter2@host/db" (by decide)
  exact ⟨h.1, (h.2.2 (by decide)).1⟩

end Runtests
